import Mathlib

/-!
Verification development for the nginx-to-edge-js repository.

The repository converts a parsed nginx configuration (a crossplane directive
tree) into a unified configuration model (`src/core/transformer.ts` together
with `src/core/config-model.ts`) and from that model generates source code for
four edge targets: CloudFlare Workers (`cloudflare.ts`), Next.js middleware
(`nextjs-middleware.ts`), AWS Lambda@Edge (`lambda-edge.ts`) and QuickJS
(`quickjs.ts`).  A second, independent pipeline transforms the directive tree
into UCL (`src/converters/nginx-to-ucl-transformer.ts`).

This file shallowly embeds the relevant TypeScript functions as executable
Lean definitions and proves properties of them.  JavaScript numbers that can
be `NaN` (results of `parseInt`) are modelled as `Option Int`; JavaScript
`undefined` for optional fields is modelled as `none`; JavaScript exceptions
are modelled with `Except`.
-/

set_option maxRecDepth 4096
set_option linter.unreachableTactic false
set_option linter.unusedTactic false

namespace NginxToEdge

/-! ## JavaScript primitives -/

/-- Value of the leading decimal-digit run of a character list, `none` when the
list does not start with a digit.  Used to model `parseInt(s, 10)`. -/
def digitsPrefixVal (cs : List Char) : Option Nat :=
  let ds := cs.takeWhile Char.isDigit
  if ds.isEmpty then none
  else some (ds.foldl (fun a c => a * 10 + (c.toNat - '0'.toNat)) 0)

/-- JavaScript `parseInt(s, 10)`: skip leading whitespace, optional sign, then
the leading digit run; `NaN` (modelled `none`) when no digit is found. -/
def jsParseInt (s : String) : Option Int :=
  let cs := s.toList.dropWhile (fun c => c = ' ' ∨ c = '\t' ∨ c = '\n' ∨ c = '\r')
  match cs with
  | '-' :: rest => (digitsPrefixVal rest).map (fun n => -(n : Int))
  | '+' :: rest => (digitsPrefixVal rest).map (fun n => (n : Int))
  | _ => (digitsPrefixVal cs).map (fun n => (n : Int))

/-- JavaScript `a || d` for an optional string `a` (array access that may be
`undefined`): the default is taken when the entry is absent or is the empty
string (both are falsy). -/
def jsOrElse (a : Option String) (d : String) : String :=
  match a with
  | some s => if s.isEmpty then d else s
  | none => d

/-- Whether `sub` occurs as a contiguous sublist of `l`
(JavaScript `String.prototype.includes` on the character level). -/
def listContainsSub (l sub : List Char) : Bool :=
  match l with
  | [] => sub.isEmpty
  | _ :: t => sub.isPrefixOf l || listContainsSub t sub

/-- JavaScript `s.includes(sub)`. -/
def jsIncludes (s sub : String) : Bool :=
  listContainsSub s.toList sub.toList

/-- Replace the first occurrence of `pat` in `l` by `rep`
(JavaScript `String.prototype.replace` with a *string* pattern replaces only
the first occurrence, unlike Lean's `String.replace`). -/
def listReplaceFirst (l pat rep : List Char) : List Char :=
  match l with
  | [] => []
  | c :: t =>
    if pat.isPrefixOf l ∧ ¬pat.isEmpty then rep ++ l.drop pat.length
    else c :: listReplaceFirst t pat rep

/-- JavaScript `s.replace('pat', 'rep')` (string pattern: first occurrence only). -/
def jsReplaceFirst (s pat rep : String) : String :=
  ⟨listReplaceFirst s.toList pat.toList rep.toList⟩

/-- All-occurrence replacement on character lists, fuelled by the input
length so that it is structural and proofs can evaluate it. -/
def listReplaceAllFuel : Nat → List Char → List Char → List Char → List Char
  | 0, l, _, _ => l
  | _ + 1, [], _, _ => []
  | n + 1, c :: t, pat, rep =>
    if pat.isPrefixOf (c :: t) ∧ ¬pat.isEmpty then
      rep ++ listReplaceAllFuel n ((c :: t).drop pat.length) pat rep
    else c :: listReplaceAllFuel n t pat rep

/-- JavaScript `s.replace(/pat/g, rep)` for a pattern without metacharacters:
every occurrence is replaced, left to right, without overlap. -/
def jsReplaceAll (s pat rep : String) : String :=
  ⟨listReplaceAllFuel s.toList.length s.toList pat.toList rep.toList⟩

/-- `s.includes(c)` / `String.contains`, over the character list (the
built-in byte-position implementations do not reduce in proofs). -/
def charIn (s : String) (c : Char) : Bool :=
  s.toList.contains c

/-- `s.startsWith(p)`, over character lists. -/
def strStarts (s p : String) : Bool :=
  p.toList.isPrefixOf s.toList

/-- `s.endsWith(p)`, over character lists. -/
def strEnds (s p : String) : Bool :=
  (p.toList.reverse).isPrefixOf (s.toList.reverse)

/-- `s.toLowerCase()` / `String.toLower`, over the character list. -/
def strLower (s : String) : String :=
  ⟨s.toList.map Char.toLower⟩

/-- Whitespace trimmed by `trim` (the sources only trim values built from
configuration tokens, which contain no exotic whitespace). -/
def wsChar (c : Char) : Bool :=
  c = ' ' ∨ c = '\t' ∨ c = '\n' ∨ c = '\r'

/-- `s.trim()`, over the character list. -/
def strTrim (s : String) : String :=
  ⟨((s.toList.dropWhile wsChar).reverse.dropWhile wsChar).reverse⟩

/-- `s.substring(n)`, over the character list. -/
def strDrop (s : String) (n : Nat) : String :=
  ⟨s.toList.drop n⟩

/-! ## A model of the JavaScript regexes emitted by the generators

The generators only ever interpolate the following constructs into regex
literals: literal characters, `\`-escaped characters, `.`, a postfix `*`, and
the anchors `^` and `$` that some templates wrap around the pattern.  The
matcher below gives these constructs their ECMAScript semantics (`.` matches
any character except a line terminator; `x*` matches zero or more `x`; an
unanchored regex matches when some substring matches).  Character classes,
`+`, `?` and other constructs never reach the emitted regexes for the
configurations considered in this development. -/

/-- One regex atom: the wildcard `.` or a literal character (either plain or
produced by a backslash escape). -/
inductive RAtom where
  | dot
  | lit (c : Char)
  deriving Repr, DecidableEq

/-- Scan a regex source string into atoms, each tagged with whether a postfix
`*` follows it.  A `\` escapes the next character; a `*` with no preceding
atom is kept as a literal (the emitted regexes never contain one). -/
def regexTokens : List Char → List (RAtom × Bool)
  | [] => []
  | '\\' :: c :: '*' :: rest => (.lit c, true) :: regexTokens rest
  | '\\' :: c :: rest => (.lit c, false) :: regexTokens rest
  | '\\' :: [] => [(.lit '\\', false)]
  | '.' :: '*' :: rest => (.dot, true) :: regexTokens rest
  | '.' :: rest => (.dot, false) :: regexTokens rest
  | c :: '*' :: rest => (.lit c, true) :: regexTokens rest
  | c :: rest => (.lit c, false) :: regexTokens rest

/-- Atom match on one character; `ci` requests case-insensitive comparison
(the `/i` flag), `.` matches everything except a line terminator. -/
def atomMatch (ci : Bool) : RAtom → Char → Bool
  | .dot, c => ¬(c = '\n' ∨ c = '\r')
  | .lit a, c => if ci then a.toLower = c.toLower else a = c

/-- Fuel-driven matcher: does the token list match the whole character list?
Each recursive call shrinks either the regex or the input, so fuel
`re.length + s.length + 1` always suffices. -/
def matchFuel (ci : Bool) : Nat → List (RAtom × Bool) → List Char → Bool
  | 0, _, _ => false
  | _ + 1, [], s => s.isEmpty
  | n + 1, (a, false) :: re, s =>
    match s with
    | [] => false
    | c :: s' => atomMatch ci a c && matchFuel ci n re s'
  | n + 1, (a, true) :: re, s =>
    matchFuel ci n re s ||
      match s with
      | [] => false
      | c :: s' => atomMatch ci a c && matchFuel ci n ((a, true) :: re) s'

/-- Whole-string match of a token list. -/
def tokensFullMatch (ci : Bool) (re : List (RAtom × Bool)) (s : List Char) : Bool :=
  matchFuel ci (re.length + s.length + 1) re s

/-- Fuel-driven matcher for "the token list matches some *prefix* of `s`". -/
def matchPreFuel (ci : Bool) : Nat → List (RAtom × Bool) → List Char → Bool
  | 0, _, _ => false
  | _ + 1, [], _ => true
  | n + 1, (a, false) :: re, s =>
    match s with
    | [] => false
    | c :: s' => atomMatch ci a c && matchPreFuel ci n re s'
  | n + 1, (a, true) :: re, s =>
    matchPreFuel ci n re s ||
      match s with
      | [] => false
      | c :: s' => atomMatch ci a c && matchPreFuel ci n ((a, true) :: re) s'

/-- Does the token list match some prefix of `s`? -/
def tokensMatchPre (ci : Bool) (re : List (RAtom × Bool)) (s : List Char) : Bool :=
  matchPreFuel ci (re.length + s.length + 1) re s

/-- Does the token list match some prefix of some suffix of `s`
(i.e. some substring)? -/
def tokensSearch (ci : Bool) (re : List (RAtom × Bool)) : List Char → Bool
  | [] => tokensMatchPre ci re []
  | c :: s => tokensMatchPre ci re (c :: s) || tokensSearch ci re s

/-- Does the token list match some suffix-aligned substring (a match that
extends to the end of `s`)? -/
def tokensSearchToEnd (ci : Bool) (re : List (RAtom × Bool)) : List Char → Bool
  | [] => tokensFullMatch ci re []
  | c :: s => tokensFullMatch ci re (c :: s) || tokensSearchToEnd ci re s

/-- Truthiness of JavaScript `s.match(/src/)` (`/i` when `ci`): strips the
anchors `^` and `$` when present at the ends of `src` and then requires a
match at the corresponding positions. -/
def jsRegexTest (ci : Bool) (src : String) (s : String) : Bool :=
  let cs := src.toList
  let anchoredStart : Bool := cs.head? == some '^'
  let cs := if anchoredStart then cs.tail else cs
  let anchoredEnd : Bool := cs.getLast? == some '$' && cs.dropLast.getLast? != some '\\'
  let cs := if anchoredEnd then cs.dropLast else cs
  let re := regexTokens cs
  if anchoredStart then
    if anchoredEnd then tokensFullMatch ci re s.toList
    else tokensMatchPre ci re s.toList
  else
    if anchoredEnd then tokensSearchToEnd ci re s.toList
    else tokensSearch ci re s.toList

/-! ## The configuration model (`src/core/config-model.ts`) -/

/-- `ListenDirective` (only the fields the builder sets).  `port : number` can
be `NaN` when `parseInt` fails, modelled as `none`. -/
structure ListenDirective where
  port : Option Int
  deriving Repr, DecidableEq

/-- `LocationModifier = '=' | '~' | '~*' | '^~'`. -/
inductive LocationModifier where
  | exactEq      -- '='
  | regexCS      -- '~'
  | regexCI      -- '~*'
  | priorityPre  -- '^~'
  deriving Repr, DecidableEq

/-- `ReturnDirective {code, url?, text?}`; `code` may be `NaN`. -/
structure ReturnDirective where
  code : Option Int
  url : Option String := none
  text : Option String := none
  deriving Repr, DecidableEq

/-- `RewriteRule {regex, replacement, flags?}`. -/
structure RewriteRule where
  regex : String
  replacement : String
  flags : Option (List String) := none
  deriving Repr, DecidableEq

/-- `LocationDirectives`: the recognized keys of the open directive map.  The
values of `add_header` and `proxy_set_header` are JavaScript objects, modelled
as insertion-ordered association lists updated by `objSet` below; a value may
be `undefined` (an `add_header` with a single argument), hence `Option
String`. -/
structure LocationDirectives where
  proxy_pass : Option String := none
  root : Option String := none
  index : Option String := none
  «alias» : Option String := none
  expires : Option String := none
  ret : Option ReturnDirective := none
  rewrite : Option (List RewriteRule) := none
  add_header : Option (List (String × Option String)) := none
  proxy_set_header : Option (List (String × String)) := none
  fastcgi_pass : Option String := none
  uwsgi_pass : Option String := none
  deriving Repr, DecidableEq

/-- `LocationBlock {path, modifier?, directives}`. -/
structure LocationBlock where
  path : String
  modifier : Option LocationModifier := none
  directives : LocationDirectives := {}
  deriving Repr, DecidableEq

/-- `SSLConfig` (only the field the generators inspect). -/
structure SSLConfig where
  certificate : Option String := none
  deriving Repr, DecidableEq

/-- `ServerBlock`. -/
structure ServerBlock where
  listen : List ListenDirective := []
  server_name : Option (List String) := none
  ssl : Option SSLConfig := none
  locations : List LocationBlock := []
  deriving Repr, DecidableEq

/-- `UpstreamBlock` (never constructed by the builder). -/
structure UpstreamBlock where
  name : String
  deriving Repr, DecidableEq

/-- `NginxConfig`. -/
structure NginxConfig where
  servers : List ServerBlock := []
  upstreams : List UpstreamBlock := []
  deriving Repr, DecidableEq

/-- JavaScript object assignment `obj[k] = v` on an insertion-ordered
association list: an existing key keeps its position and gets the new value,
a new key is appended. -/
def objSet (m : List (String × α)) (k : String) (v : α) : List (String × α) :=
  match m with
  | [] => [(k, v)]
  | (k', v') :: t => if k' = k then (k, v) :: t else (k', v') :: objSet t k v

/-- Key lookup in the association-list model of a JavaScript object. -/
def objGet (m : List (String × α)) (k : String) : Option α :=
  match m with
  | [] => none
  | (k', v) :: t => if k' = k then some v else objGet t k

/-! ## The directive tree (crossplane output, `src/parser/nginx-parser.ts`) -/

/-- `NginxDirective {directive, args, block?}` (line numbers are irrelevant to
every claim and are omitted). -/
inductive NginxDirective where
  | mk (directive : String) (args : List String) (block : Option (List NginxDirective))

/-- Directive name. -/
def NginxDirective.directive : NginxDirective → String
  | .mk d _ _ => d

/-- Directive arguments. -/
def NginxDirective.args : NginxDirective → List String
  | .mk _ a _ => a

/-- Nested block, when present. -/
def NginxDirective.block : NginxDirective → Option (List NginxDirective)
  | .mk _ _ b => b

/-- One entry of `parseResult.config`: a parsed file.  `parsed` is optional
because the code guards on its truthiness. -/
structure FileEntry where
  parsed : Option (List NginxDirective)

/-- `NginxParseResult` (the fields `convertCrossplaneToConfig` reads). -/
structure ParseResult where
  config : List FileEntry

/-! ## The Configuration Model Builder (`src/core/transformer.ts`) -/

/-- One step of the `switch` inside `convertLocationBlock`: fold a nested
directive into the accumulated `LocationDirectives`.  Mirrors
`src/core/transformer.ts` lines 92-117: `proxy_pass`, `return`, `root`,
`expires` and `add_header` are recognized; everything else is ignored.  A
missing `args[0]` of `add_header` becomes the JavaScript key `"undefined"`
(string coercion of `undefined`). -/
def convertLocationDirective (dirs : LocationDirectives) (ld : NginxDirective) :
    LocationDirectives :=
  if ld.directive = "proxy_pass" then
    { dirs with proxy_pass := ld.args.head? }
  else if ld.directive = "return" then
    let r : ReturnDirective :=
      { code := jsParseInt (ld.args.headD "undefined"), url := ld.args.get? 1 }
    { dirs with ret := some r }
  else if ld.directive = "root" then
    { dirs with root := ld.args.head? }
  else if ld.directive = "expires" then
    { dirs with expires := ld.args.head? }
  else if ld.directive = "add_header" then
    let m := objSet (dirs.add_header.getD []) (ld.args.headD "undefined") (ld.args.get? 1)
    { dirs with add_header := some m }
  else dirs

/-- `convertLocationBlock` (`src/core/transformer.ts` lines 85-121): the path
is `directive.args[0] || '/'`; no modifier is ever stored; the nested block is
folded by `convertLocationDirective`. -/
def convertLocationBlock (d : NginxDirective) : LocationBlock :=
  { path := jsOrElse d.args.head? "/"
    directives := (d.block.getD []).foldl convertLocationDirective {} }

/-- One step of the `switch` inside `convertServerBlock`:
`listen` parses `args[0] || '80'` with `parseInt`, `server_name` stores the
argument list verbatim, `location` delegates to `convertLocationBlock`. -/
def convertServerDirective (s : ServerBlock) (sd : NginxDirective) : ServerBlock :=
  if sd.directive = "listen" then
    { s with listen := s.listen ++ [{ port := jsParseInt (jsOrElse sd.args.head? "80") }] }
  else if sd.directive = "server_name" then
    { s with server_name := some sd.args }
  else if sd.directive = "location" then
    { s with locations := s.locations ++ [convertLocationBlock sd] }
  else s

/-- `convertServerBlock` (`src/core/transformer.ts` lines 53-80). -/
def convertServerBlock (d : NginxDirective) : ServerBlock :=
  (d.block.getD []).foldl convertServerDirective { listen := [], locations := [] }

/-- One step of the top-level loop of `convertCrossplaneToConfig`: an `http`
directive with a block contributes the servers of its children (`upstream`
children are explicitly skipped), a top-level `server` contributes itself;
everything else is ignored. -/
def convertTopDirective (c : NginxConfig) (d : NginxDirective) : NginxConfig :=
  match d.block with
  | some blk =>
    if d.directive = "http" then
      { c with servers := c.servers ++
          (blk.filter (fun hd => hd.directive = "server")).map convertServerBlock }
    else if d.directive = "server" then
      { c with servers := c.servers ++ [convertServerBlock d] }
    else c
  | none =>
    if d.directive = "server" then
      { c with servers := c.servers ++ [convertServerBlock d] }
    else c

/-- Metadata attached by the builder; `parsed_at` (a wall-clock date) is not
modelled, `warnings` is the literal `[]` of the source. -/
structure ConfigMetadata where
  parser_version : String
  warnings : List String
  deriving Repr, DecidableEq

/-- `ParsedNginxConfig`: the configuration together with its metadata. -/
structure ParsedNginxConfig where
  servers : List ServerBlock
  upstreams : List UpstreamBlock
  metadata : ConfigMetadata

/-- `convertCrossplaneToConfig` (`src/core/transformer.ts` lines 11-48): only
`parseResult.config[0]` is inspected; only `server` blocks (top-level or under
`http`) are converted; `upstreams` stays the initial `[]`; the metadata
carries an empty `warnings` array. -/
def convertCrossplaneToConfig (pr : ParseResult) : ParsedNginxConfig :=
  let base : NginxConfig :=
    match pr.config.head? with
    | none => {}
    | some fileEntry =>
      match fileEntry.parsed with
      | none => {}
      | some directives => directives.foldl convertTopDirective {}
  { servers := base.servers
    upstreams := base.upstreams
    metadata := { parser_version := "crossplane-1.0.0", warnings := [] } }

/-! ## Host-matching condition synthesis

Each generator has a private `generateHostCondition(hostPatterns)` returning a
JavaScript boolean expression over the runtime `hostname`.  We embed the
expression as the AST `HostCond` (each constructor names the emitted text) and
interpret it with `evalHostCond`. -/

/-- The emitted host condition: `anyHost` is the literal `true`; `ors` is the
`' || '`-join of per-pattern conditions, where `patRegex r` stands for
`hostname.match(/^r$/)` and `patEq p` for `hostname === "p"`. -/
inductive HostPat where
  | patRegex (r : String)
  | patEq (p : String)
  deriving Repr, DecidableEq

/-- Host condition AST. -/
inductive HostCond where
  | anyHost
  | ors (cs : List HostPat)
  deriving Repr, DecidableEq

/-- `CloudFlareGenerator.generateHostCondition` (`cloudflare.ts` lines
89-105): `'*'`-containing patterns become `pattern.replace(/\*/g, '.*')`
wrapped in `^…$`; other patterns compare for equality. -/
def cloudflareGenerateHostCondition (hostPatterns : List String) : HostCond :=
  if hostPatterns.contains "*" || hostPatterns.isEmpty then .anyHost
  else .ors (hostPatterns.map (fun pattern =>
    if charIn pattern '*' then .patRegex (jsReplaceAll pattern "*" ".*")
    else .patEq pattern))

/-- `NextJSGenerator.generateHostCondition` (`nextjs-middleware.ts` lines
97-113): textually identical to the CloudFlare helper. -/
def nextjsGenerateHostCondition (hostPatterns : List String) : HostCond :=
  if hostPatterns.contains "*" || hostPatterns.isEmpty then .anyHost
  else .ors (hostPatterns.map (fun pattern =>
    if charIn pattern '*' then .patRegex (jsReplaceAll pattern "*" ".*")
    else .patEq pattern))

/-- `LambdaEdgeGenerator.generateHostCondition` (`lambda-edge.ts` lines
128-144): like the CloudFlare helper but the wildcard conversion additionally
escapes every dot **after** inserting `.*`:
`pattern.replace(/\*/g, '.*').replace(/\./g, '\\.')`. -/
def lambdaEdgeGenerateHostCondition (hostPatterns : List String) : HostCond :=
  if hostPatterns.contains "*" || hostPatterns.isEmpty then .anyHost
  else .ors (hostPatterns.map (fun pattern =>
    if charIn pattern '*' then
      .patRegex (jsReplaceAll (jsReplaceAll pattern "*" ".*") "." "\\.")
    else .patEq pattern))

/-- `QuickJSGenerator.generateHostCondition` (`quickjs.ts` lines 371-387):
textually identical to the Lambda@Edge helper. -/
def quickjsGenerateHostCondition (hostPatterns : List String) : HostCond :=
  if hostPatterns.contains "*" || hostPatterns.isEmpty then .anyHost
  else .ors (hostPatterns.map (fun pattern =>
    if charIn pattern '*' then
      .patRegex (jsReplaceAll (jsReplaceAll pattern "*" ".*") "." "\\.")
    else .patEq pattern))

/-- Truth value of one per-pattern condition on a hostname. -/
def evalHostPat (hostname : String) : HostPat → Bool
  | .patRegex r => jsRegexTest false ("^" ++ r ++ "$") hostname
  | .patEq p => hostname = p

/-- Truth value of a host condition on a hostname. -/
def evalHostCond (c : HostCond) (hostname : String) : Bool :=
  match c with
  | .anyHost => true
  | .ors cs => cs.any (evalHostPat hostname)

/-- `BaseGenerator.extractHostPatterns`.  Modelled from the spec:
`base-generator.ts` is not part of the sources; §4.2 specifies that the host
condition is synthesized from "a server's `server_name` list" stored verbatim
by the builder, so the helper yields that list, empty when absent. -/
def extractHostPatterns (server : ServerBlock) : List String :=
  server.server_name.getD []

/-! ## Location-path matching condition synthesis

CloudFlare and Next.js synthesize the path condition from the *modifier
field* (`generateLocationCondition`); Lambda@Edge and QuickJS synthesize it
from the *path string alone* (`convertNginxPathToJs`), never reading the
modifier field.  `PathCond` has one constructor per emitted expression
shape. -/

/-- `BaseGenerator.convertNginxRegex`.  Modelled from the spec: the helper is
in the missing `base-generator.ts`; §4.2 item 3 specifies "nginx-style regex
syntax is passed through with minimal translation (… identity passthrough)". -/
def convertNginxRegex (r : String) : String := r

/-- Path condition AST; the comments give the emitted JavaScript. -/
inductive PathCond where
  | pcEq (p : String)                -- url.pathname === "p"  /  uri === "p"
  | pcRegex (r : String) (ci : Bool) -- url.pathname.match(/r/), /r/i
  | pcStarts (p : String)            -- url.pathname.startsWith("p")
  | pcEqOrSlash (p : String)         -- === "p" || startsWith("p/")
  | pcRootOr                         -- uri === "/" || uri.startsWith("/")
  | pcMatchesPath (p : String)       -- matchesPath(uri, "p") helper call
  deriving Repr, DecidableEq

/-- `CloudFlareGenerator.generateLocationCondition` (`cloudflare.ts` lines
131-150), keyed on the modifier field. -/
def cloudflareGenerateLocationCondition (location : LocationBlock) : PathCond :=
  let path := location.path
  match location.modifier with
  | some .exactEq => .pcEq path
  | some .regexCS => .pcRegex (convertNginxRegex path) false
  | some .regexCI => .pcRegex (convertNginxRegex path) true
  | some .priorityPre => .pcStarts path
  | none =>
    if strEnds path "/" then .pcStarts path
    else .pcEqOrSlash path

/-- `NextJSGenerator.generateLocationCondition` (`nextjs-middleware.ts` lines
139-158): textually identical to the CloudFlare helper. -/
def nextjsGenerateLocationCondition (location : LocationBlock) : PathCond :=
  let path := location.path
  match location.modifier with
  | some .exactEq => .pcEq path
  | some .regexCS => .pcRegex (convertNginxRegex path) false
  | some .regexCI => .pcRegex (convertNginxRegex path) true
  | some .priorityPre => .pcStarts path
  | none =>
    if strEnds path "/" then .pcStarts path
    else .pcEqOrSlash path

/-- `LambdaEdgeGenerator.convertNginxPathToJs` (`lambda-edge.ts` lines
307-325): works on the path string only.  `'/'` gets the disjunction
`uri === "/" || uri.startsWith("/")`; a path containing `'~'` is treated as a
regex after `replace('~*','').replace('~','').trim()` (string patterns: first
occurrence only); a path starting with `'='` is an exact match on
`path.substring(1)`; anything else goes through the emitted `matchesPath`
helper. -/
def lambdaEdgeConvertNginxPathToJs (path : String) : PathCond :=
  if path = "/" then .pcRootOr
  else if charIn path '~' then
    .pcRegex (strTrim (jsReplaceFirst (jsReplaceFirst path "~*" "") "~" "")) false
  else if strStarts path "=" then .pcEq (strDrop path 1)
  else .pcMatchesPath path

/-- `QuickJSGenerator.convertNginxPathToJs` (`quickjs.ts` lines 613-631):
textually identical to the Lambda@Edge helper (over `context.pathname`). -/
def quickjsConvertNginxPathToJs (path : String) : PathCond :=
  if path = "/" then .pcRootOr
  else if charIn path '~' then
    .pcRegex (strTrim (jsReplaceFirst (jsReplaceFirst path "~*" "") "~" "")) false
  else if strStarts path "=" then .pcEq (strDrop path 1)
  else .pcMatchesPath path

/-- The `matchesPath` helper function emitted into the Lambda@Edge and
QuickJS outputs (`lambda-edge.ts` lines 284-290, `quickjs.ts` lines 553-559):
`'/'` matches everything; a pattern ending in `'/'` is a prefix test;
otherwise exact match or prefix followed by `'/'`. -/
def matchesPath (uri pattern : String) : Bool :=
  if pattern = "/" then true
  else if strEnds pattern "/" then strStarts uri pattern
  else uri = pattern || strStarts uri (pattern ++ "/")

/-- Truth value of a path condition on a request path. -/
def evalPathCond (c : PathCond) (uri : String) : Bool :=
  match c with
  | .pcEq p => uri = p
  | .pcRegex r ci => jsRegexTest ci r uri
  | .pcStarts p => strStarts uri p
  | .pcEqOrSlash p => uri = p || strStarts uri (p ++ "/")
  | .pcRootOr => uri = "/" || strStarts uri "/"
  | .pcMatchesPath p => matchesPath uri p

/-! ## Location ordering -/

/-- The comparator passed to `Array.prototype.sort` by
`CloudFlareGenerator.generateLocationHandlers` (`cloudflare.ts` lines
111-115) and `NextJSGenerator.generateLocationHandlers`
(`nextjs-middleware.ts` lines 119-123): `'='` locations first, then
descending path length. -/
def locationCmp (a b : LocationBlock) : Int :=
  if a.modifier = some .exactEq ∧ b.modifier ≠ some .exactEq then -1
  else if b.modifier = some .exactEq ∧ a.modifier ≠ some .exactEq then 1
  else (b.path.length : Int) - (a.path.length : Int)

/-- Stable insertion of an element after every element that does not have to
come after it. -/
def sortInsert (e : LocationBlock) : List LocationBlock → List LocationBlock
  | [] => [e]
  | x :: xs => if locationCmp x e ≤ 0 then x :: sortInsert e xs else e :: x :: xs

/-- `[...locations].sort(comparator)`: ECMAScript `Array.prototype.sort` is
stable and, for a consistent comparator such as `locationCmp`, produces the
unique stable order; modelled as a stable insertion sort. -/
def sortLocations (locations : List LocationBlock) : List LocationBlock :=
  locations.foldl (fun acc e => sortInsert e acc) []

/-- Emission order of the per-location condition blocks of
`CloudFlareGenerator.generateLocationHandlers` (`cloudflare.ts` lines
107-129): the sorted locations, each with its path and synthesized
condition. -/
def cloudflareLocationHandlerOrder (locations : List LocationBlock) :
    List (String × PathCond) :=
  (sortLocations locations).map (fun l => (l.path, cloudflareGenerateLocationCondition l))

/-- Emission order for `NextJSGenerator.generateLocationHandlers`
(`nextjs-middleware.ts` lines 115-137): same sort, same conditions. -/
def nextjsLocationHandlerOrder (locations : List LocationBlock) :
    List (String × PathCond) :=
  (sortLocations locations).map (fun l => (l.path, nextjsGenerateLocationCondition l))

/-- Emission order for `LambdaEdgeGenerator.generateLocationHandlers`
(`lambda-edge.ts` lines 146-168): a plain `forEach` over the locations in
declaration order — no sorting. -/
def lambdaEdgeLocationHandlerOrder (locations : List LocationBlock) :
    List (String × PathCond) :=
  locations.map (fun l => (l.path, lambdaEdgeConvertNginxPathToJs l.path))

/-- Emission order for `QuickJSGenerator.generateLocationHandlers`
(`quickjs.ts` lines 389-411): a plain `forEach` in declaration order — no
sorting. -/
def quickjsLocationHandlerOrder (locations : List LocationBlock) :
    List (String × PathCond) :=
  locations.map (fun l => (l.path, quickjsConvertNginxPathToJs l.path))

/-! ## Validation -/

/-- JavaScript truthiness of an optional string: present and nonempty. -/
def jsTruthyStr (o : Option String) : Bool :=
  match o with
  | some s => ¬s.isEmpty
  | none => false

/-- Truthiness of `server.ssl?.certificate`. -/
def sslCertTruthy (server : ServerBlock) : Bool :=
  match server.ssl with
  | some sslConfig => jsTruthyStr sslConfig.certificate
  | none => false

/-- `validate() -> {valid, errors, warnings}`. -/
structure ValidationResult where
  valid : Bool
  errors : List String
  warnings : List String
  deriving Repr, DecidableEq

/-- Whether a location carries a static-file indicator
(`root`/`alias` present). -/
def staticIndicator (l : LocationBlock) : Bool :=
  jsTruthyStr l.directives.root || jsTruthyStr l.directives.«alias»

/-- `CloudFlareGenerator.validatePlatformSpecific` (`cloudflare.ts` lines
26-48): warnings for SSL certificates, static-file locations and `expires`;
it never pushes an error. -/
def cloudflareValidatePlatformSpecific (config : ParsedNginxConfig) :
    List String × List String :=
  let warnings := config.servers.enum.flatMap (fun si =>
    let i := si.1
    let server := si.2
    (if sslCertTruthy server then
      [s!"Server {i}: SSL certificates are managed by CloudFlare, not in Workers"]
    else []) ++
    server.locations.enum.flatMap (fun lj =>
      let j := lj.1
      let l := lj.2
      (if staticIndicator l then
        [s!"Server {i}, Location {j}: Static file serving requires CloudFlare Pages or R2 integration"]
      else []) ++
      (if jsTruthyStr l.directives.expires then
        [s!"Server {i}, Location {j}: Cache-Control headers should be set in CF dashboard or using CF-specific headers"]
      else [])))
  (warnings, [])

/-- `NextJSGenerator.validatePlatformSpecific` (`nextjs-middleware.ts` lines
30-55): warnings for any `ssl` object, static-file locations and non-`http`
proxy backends; it never pushes an error. -/
def nextjsValidatePlatformSpecific (config : ParsedNginxConfig) :
    List String × List String :=
  let warnings := config.servers.enum.flatMap (fun si =>
    let i := si.1
    let server := si.2
    (if server.ssl.isSome then
      [s!"Server {i}: SSL configuration is handled by deployment platform (Vercel, etc.)"]
    else []) ++
    server.locations.enum.flatMap (fun lj =>
      let j := lj.1
      let l := lj.2
      (if staticIndicator l then
        [s!"Server {i}, Location {j}: Static files should be in the 'public' directory"]
      else []) ++
      (match l.directives.proxy_pass with
       | some backend =>
         if ¬backend.isEmpty ∧ ¬strStarts backend "http" then
           [s!"Server {i}, Location {j}: Proxy backend should be a full URL for Next.js"]
         else []
       | none => [])))
  (warnings, [])

/-- `LambdaEdgeGenerator.validatePlatformSpecific` (`lambda-edge.ts` lines
26-53): warnings for SSL certificates, static-file locations and the 1 MB
proxy response limit; an **error** per location with `fastcgi_pass` or
`uwsgi_pass`. -/
def lambdaEdgeValidatePlatformSpecific (config : ParsedNginxConfig) :
    List String × List String :=
  let warnings := config.servers.enum.flatMap (fun si =>
    let i := si.1
    let server := si.2
    (if sslCertTruthy server then
      [s!"Server {i}: SSL certificates are managed by CloudFront, not in Lambda@Edge"]
    else []) ++
    server.locations.enum.flatMap (fun lj =>
      let j := lj.1
      let l := lj.2
      (if staticIndicator l then
        [s!"Server {i}, Location {j}: Static file serving requires S3 origin configuration"]
      else []) ++
      (if jsTruthyStr l.directives.proxy_pass then
        [s!"Server {i}, Location {j}: Response size limited to 1MB in Lambda@Edge"]
      else [])))
  let errors := config.servers.enum.flatMap (fun si =>
    let i := si.1
    si.2.locations.enum.flatMap (fun lj =>
      let j := lj.1
      let l := lj.2
      if jsTruthyStr l.directives.fastcgi_pass || jsTruthyStr l.directives.uwsgi_pass then
        [s!"Server {i}, Location {j}: FastCGI/uWSGI not supported in Lambda@Edge"]
      else []))
  (warnings, errors)

/-- `QuickJSGenerator.validatePlatformSpecific` (`quickjs.ts` lines 289-321):
warnings for SSL certificates, static-file locations and memory constraints;
an **error** per location with `fastcgi_pass`/`uwsgi_pass` and per
`proxy_pass` value containing `'fs.'`. -/
def quickjsValidatePlatformSpecific (config : ParsedNginxConfig) :
    List String × List String :=
  let warnings := config.servers.enum.flatMap (fun si =>
    let i := si.1
    let server := si.2
    (if sslCertTruthy server then
      [s!"Server {i}: SSL certificates are typically managed by the edge platform, not in QuickJS functions"]
    else []) ++
    server.locations.enum.flatMap (fun lj =>
      let j := lj.1
      let l := lj.2
      (if staticIndicator l then
        [s!"Server {i}, Location {j}: Static file serving requires platform-specific configuration"]
      else []) ++
      (if jsTruthyStr l.directives.proxy_pass then
        [s!"Server {i}, Location {j}: QuickJS has memory constraints - optimize for minimal allocations"]
      else [])))
  let errors := config.servers.enum.flatMap (fun si =>
    let i := si.1
    si.2.locations.enum.flatMap (fun lj =>
      let j := lj.1
      let l := lj.2
      (if jsTruthyStr l.directives.fastcgi_pass || jsTruthyStr l.directives.uwsgi_pass then
        [s!"Server {i}, Location {j}: FastCGI/uWSGI not supported in QuickJS environments"]
      else []) ++
      (if jsTruthyStr l.directives.proxy_pass ∧
          jsIncludes (l.directives.proxy_pass.getD "") "fs." then
        [s!"Server {i}, Location {j}: Node.js filesystem APIs not available in QuickJS"]
      else [])))
  (warnings, errors)

/-- `BaseGenerator.validate`.  Modelled from the spec: `base-generator.ts` is
not part of the sources; §4.2 specifies a shared structural check ("servers
empty" is a warning, not an error) followed by the generator's
`validatePlatformSpecific`, with `valid === (errors array is empty)` and both
arrays accumulated exhaustively. -/
def baseValidate (platform : ParsedNginxConfig → List String × List String)
    (config : ParsedNginxConfig) : ValidationResult :=
  let structuralWarnings :=
    if config.servers.isEmpty then ["Configuration contains no server blocks"] else []
  let pw := (platform config).1
  let pe := (platform config).2
  { valid := pe.isEmpty, errors := pe, warnings := structuralWarnings ++ pw }

/-- `CloudFlareGenerator`'s `validate()`. -/
def cloudflareValidate : ParsedNginxConfig → ValidationResult :=
  baseValidate cloudflareValidatePlatformSpecific

/-- `NextJSGenerator`'s `validate()`. -/
def nextjsValidate : ParsedNginxConfig → ValidationResult :=
  baseValidate nextjsValidatePlatformSpecific

/-- `LambdaEdgeGenerator`'s `validate()`. -/
def lambdaEdgeValidate : ParsedNginxConfig → ValidationResult :=
  baseValidate lambdaEdgeValidatePlatformSpecific

/-- `QuickJSGenerator`'s `validate()`. -/
def quickjsValidate : ParsedNginxConfig → ValidationResult :=
  baseValidate quickjsValidatePlatformSpecific

/-- The aggregate message thrown by every generator's `generate()` when
validation fails: `'Validation failed: ' + validation.errors.join(', ')`. -/
def validationFailureMsg (errors : List String) : String :=
  "Validation failed: " ++ String.intercalate ", " errors

/-! ## The WHATWG `URL` constructor, as used by the generators

`new URL(s)` throws on a string with no scheme; the generators feed it
`proxy_pass` values stripped of nginx variables.  The model covers scheme
detection, the `//`-authority form with `host[:port]` and path, default-port
normalization (`URL.port` is `''` for `http:80`/`https:443`) and the opaque
no-authority form; this is faithful for every value a `proxy_pass` directive
can supply to these generators except exotic special-scheme corner cases
(e.g. `http:host` without slashes) that normalize further in browsers. -/

structure JsURL where
  protocol : String   -- including the trailing ':'
  hostname : String
  port : String       -- '' when absent or equal to the scheme default
  pathname : String
  deriving Repr, DecidableEq

/-- `new URL(s)`: `none` models the thrown `TypeError: Invalid URL`. -/
def jsParseURL (s : String) : Option JsURL :=
  let cs := s.toList
  let scheme := cs.takeWhile (fun c => c ≠ ':')
  if scheme.length = cs.length then none          -- no ':' at all: Invalid URL
  else if scheme.isEmpty then none
  else if ¬(scheme.headD 'a').isAlpha then none
  else
    let schemeStr := String.mk (scheme.map Char.toLower)
    let rest := cs.drop (scheme.length + 1)
    if rest.take 2 = ['/', '/'] then
      let auth := (rest.drop 2).takeWhile (fun c => c ≠ '/' ∧ c ≠ '?' ∧ c ≠ '#')
      let path := (rest.drop 2).drop auth.length
      let host := auth.takeWhile (fun c => c ≠ ':')
      let portDigits := auth.drop (host.length + 1)
      if host.isEmpty then none
      else if host.length < auth.length ∧ ¬portDigits.all Char.isDigit then none
      else
        let rawPort := if host.length < auth.length then String.mk portDigits else ""
        let port :=
          if (schemeStr = "http" ∧ rawPort = "80") ∨ (schemeStr = "https" ∧ rawPort = "443")
          then "" else rawPort
        some { protocol := schemeStr ++ ":"
               hostname := String.mk (host.map Char.toLower)
               port := port
               pathname := if path.isEmpty then "/" else String.mk path }
    else
      some { protocol := schemeStr ++ ":"
             hostname := ""
             port := ""
             pathname := String.mk rest }

/-- `proxyPass.replace(/\$.*/, '')`: everything from the first `'$'` on is
removed (the values contain no line terminators). -/
def stripNginxVars (proxyPass : String) : String :=
  String.mk (proxyPass.toList.takeWhile (fun c => c ≠ '$'))

/-! ## Lambda@Edge code generation (`lambda-edge.ts`) -/

/-- `LambdaEdgeGenerator.getStatusDescription` (`lambda-edge.ts` lines
334-350); a `NaN` code (`none`) finds no table entry and yields
`'Unknown'`. -/
def lambdaEdgeGetStatusDescription (code : Option Int) : String :=
  match code with
  | some 200 => "OK"
  | some 201 => "Created"
  | some 301 => "Moved Permanently"
  | some 302 => "Found"
  | some 304 => "Not Modified"
  | some 400 => "Bad Request"
  | some 401 => "Unauthorized"
  | some 403 => "Forbidden"
  | some 404 => "Not Found"
  | some 500 => "Internal Server Error"
  | some 502 => "Bad Gateway"
  | some 503 => "Service Unavailable"
  | _ => "Unknown"

/-- One emitted element of a Lambda@Edge location handler body; the comments
give the emitted JavaScript template. -/
inductive LELine where
  | comment (text : String)
  -- request.origin = { custom: { domainName, port, protocol, path } }
  | origin (domainName : String) (port : String) (protocol : String) (path : String)
  -- request.headers['keyLower'] = [{ key: 'origName', value: … }]
  | setHeader (keyLower origName : String) (isRef : Bool) (value : String)
  -- the redirect-shaped return { status, statusDescription, headers: {location} }
  | redirectRet (code : Int) (desc url : String)
  -- the direct return { status, statusDescription, body }
  | directRet (code : Option Int) (desc body : String)
  -- the two-comment body emitted for rewrite rules
  | rewriteNote
  deriving Repr, DecidableEq

/-- `LambdaEdgeGenerator.generateReturnHandler` (`lambda-edge.ts` lines
170-198). -/
def lambdaEdgeGenerateReturnHandler (rd : ReturnDirective) : List LELine :=
  let code := rd.code     -- parseInt of a number is the number (NaN stays NaN)
  let url := rd.url
  match code with
  | some n =>
    if 300 ≤ n ∧ n < 400 ∧ jsTruthyStr url then
      let u := url.getD ""
      [ .comment s!"Redirect {n} to {u}",
        .redirectRet n (lambdaEdgeGetStatusDescription code) u ]
    else
      [ .comment s!"Return {n}",
        .directRet code (lambdaEdgeGetStatusDescription code)
          (jsOrElse url (lambdaEdgeGetStatusDescription code)) ]
  | none =>
    [ .comment "Return NaN",
      .directRet none (lambdaEdgeGetStatusDescription none)
        (jsOrElse url (lambdaEdgeGetStatusDescription none)) ]

/-- The nginx-variable substitution applied to `proxy_set_header` values by
the Lambda@Edge generator (`lambda-edge.ts` lines 225-228). -/
def lambdaEdgeSubstHeaderValue (v : String) : String :=
  jsReplaceAll
    (jsReplaceAll
      (jsReplaceAll v "$host" "request.headers.host[0].value")
      "$remote_addr" "request.headers[\"cloudfront-viewer-address\"][0].value.split(\":\")[0]")
    "$proxy_add_x_forwarded_for"
    "request.headers[\"x-forwarded-for\"] ? request.headers[\"x-forwarded-for\"][0].value : request.headers[\"cloudfront-viewer-address\"][0].value.split(\":\")[0]"

/-- `LambdaEdgeGenerator.wrapInQuotesIfNeeded` (`lambda-edge.ts` lines
327-332): a value mentioning `request.headers` or `[0].value` is emitted as a
reference, anything else as a quoted string. -/
def lambdaEdgeValueIsRef (v : String) : Bool :=
  jsIncludes v "request.headers" || jsIncludes v "[0].value"

/-- `LambdaEdgeGenerator.generateProxyHandler` (`lambda-edge.ts` lines
200-235).  `new URL(…)` is **not** wrapped in `try`/`catch` here: an invalid
upstream URL throws out of the whole generation (modelled as
`Except.error`). -/
def lambdaEdgeGenerateProxyHandler (proxyPass : String) (location : LocationBlock) :
    Except String (List LELine) :=
  let stripped := stripNginxVars proxyPass
  match jsParseURL stripped with
  | none => .error s!"Invalid URL: {stripped}"
  | some upstreamUrl =>
    let port :=
      if upstreamUrl.port ≠ "" then upstreamUrl.port
      else if upstreamUrl.protocol = "https:" then "443" else "80"
    let headerLines :=
      (location.directives.proxy_set_header.getD []).map (fun hv =>
        let headerValue := lambdaEdgeSubstHeaderValue hv.2
        LELine.setHeader (strLower hv.1) hv.1 (lambdaEdgeValueIsRef headerValue) headerValue)
    .ok ([ .comment s!"Proxy to: {proxyPass}",
           .comment "Modify origin request",
           .origin upstreamUrl.hostname port
             (jsReplaceFirst upstreamUrl.protocol ":" "") upstreamUrl.pathname ] ++
         (if (location.directives.proxy_set_header.getD []).isEmpty then []
          else [LELine.comment "Set proxy headers"]) ++
         headerLines)

/-- The body of one Lambda@Edge location `if`-block
(`lambda-edge.ts` lines 154-162): `return` first, then `proxy_pass`, then
`rewrite`; nothing otherwise. -/
def lambdaEdgeLocationBody (location : LocationBlock) : Except String (List LELine) :=
  if location.directives.ret.isSome then
    .ok (lambdaEdgeGenerateReturnHandler (location.directives.ret.getD { code := none }))
  else if jsTruthyStr location.directives.proxy_pass then
    lambdaEdgeGenerateProxyHandler (location.directives.proxy_pass.getD "") location
  else if location.directives.rewrite.isSome then
    .ok [LELine.rewriteNote]
  else
    .ok []

/-- One Lambda@Edge location handler: path comment, synthesized condition and
body. -/
structure LELocationHandler where
  path : String
  cond : PathCond
  body : List LELine
  deriving Repr, DecidableEq

/-- `LambdaEdgeGenerator.generateLocationHandlers` (`lambda-edge.ts` lines
146-168): declaration order, condition from `convertNginxPathToJs`. -/
def lambdaEdgeGenerateLocationHandlers (locations : List LocationBlock) :
    Except String (List LELocationHandler) :=
  locations.mapM (fun location =>
    match lambdaEdgeLocationBody location with
    | .error e => .error e
    | .ok body =>
      .ok { path := location.path
            cond := lambdaEdgeConvertNginxPathToJs location.path
            body := body })

/-- One Lambda@Edge server handler: host condition and location blocks. -/
structure LEServerHandler where
  cond : HostCond
  locations : List LELocationHandler
  deriving Repr, DecidableEq

/-- `LambdaEdgeGenerator.generateServerHandlers` (`lambda-edge.ts` lines
112-126). -/
def lambdaEdgeGenerateServerHandlers (config : ParsedNginxConfig) :
    Except String (List LEServerHandler) :=
  config.servers.mapM (fun server =>
    match lambdaEdgeGenerateLocationHandlers server.locations with
    | .error e => .error e
    | .ok handlers =>
      .ok { cond := lambdaEdgeGenerateHostCondition (extractHostPatterns server)
            locations := handlers })

/-- The `origin-response` additions (`lambda-edge.ts` lines 253-270): for
every location with `add_header`, one
`response.headers[lower] = [{key, value}]` assignment per entry. -/
def lambdaEdgeOriginResponseHeaders (config : ParsedNginxConfig) :
    List (String × String × Option String) :=
  config.servers.flatMap (fun server =>
    server.locations.flatMap (fun location =>
      (location.directives.add_header.getD []).map (fun kv =>
        (strLower kv.1, kv.1, kv.2))))

/-- `BaseGenerator.generateHeader`.  Modelled from the spec: the helper lives
in the missing `base-generator.ts`; §4.2 specifies a fixed header comment at
the top of every output. -/
def specGenerateHeader : String :=
  "// Generated by nginx-to-edge-js"

/-- The assembled Lambda@Edge output (`generateLambdaCode`,
`lambda-edge.ts` lines 55-110), structured. -/
structure LEOutput where
  header : String
  viewerRequest : List LEServerHandler
  originResponse : List (String × String × Option String)
  deriving Repr, DecidableEq

/-- `LambdaEdgeGenerator.generate` (`lambda-edge.ts` lines 8-20): validate,
throw the aggregate message on failure, otherwise assemble.  A generation-time
exception (invalid upstream URL) also aborts the whole call. -/
def lambdaEdgeGenerate (config : ParsedNginxConfig) : Except String LEOutput :=
  let validation := lambdaEdgeValidate config
  if ¬validation.valid then
    .error (validationFailureMsg validation.errors)
  else
    match lambdaEdgeGenerateServerHandlers config with
    | .error e => .error e
    | .ok handlers =>
      .ok { header := specGenerateHeader
            viewerRequest := handlers
            originResponse := lambdaEdgeOriginResponseHeaders config }

/-! ## QuickJS code generation (`quickjs.ts`) -/

/-- `QuickJSGenerator.getStatusDescription` (`quickjs.ts` lines 633-649):
same table as the Lambda@Edge one. -/
def quickjsGetStatusDescription (code : Option Int) : String :=
  lambdaEdgeGetStatusDescription code

/-- One emitted element of a QuickJS location handler body. -/
inductive QJSLine where
  | comment (text : String)
  -- const upstream = { host, port, protocol, path }
  | upstream (host : String) (port : String) (protocol : String) (path : String)
  -- proxyHeaders["keyLower"] = …
  | headerAssign (keyLower : String) (isRef : Bool) (value : String)
  -- const proxyUrl = buildProxyUrl(…); return proxyRequest(…)
  | proxyCall
  -- return createRedirect(code, "url")
  | createRedirect (code : Int) (url : String)
  -- return createResponse(code, "body")
  | createResponse (code : Option Int) (body : String)
  -- the comment-only body emitted for rewrite rules
  | rewriteNote
  deriving Repr, DecidableEq

/-- `QuickJSGenerator.generateReturnHandler` (`quickjs.ts` lines 413-431). -/
def quickjsGenerateReturnHandler (rd : ReturnDirective) : List QJSLine :=
  let code := rd.code
  let url := rd.url
  match code with
  | some n =>
    if 300 ≤ n ∧ n < 400 ∧ jsTruthyStr url then
      let u := url.getD ""
      [ .comment s!"Redirect {n} to {u}", .createRedirect n u ]
    else
      [ .comment s!"Return {n}",
        .createResponse code (jsOrElse url (quickjsGetStatusDescription code)) ]
  | none =>
    [ .comment "Return NaN",
      .createResponse none (jsOrElse url (quickjsGetStatusDescription none)) ]

/-- The nginx-variable substitution applied to `proxy_set_header` values by
the QuickJS generator (`quickjs.ts` lines 464-467). -/
def quickjsSubstHeaderValue (v : String) : String :=
  jsReplaceAll
    (jsReplaceAll
      (jsReplaceAll v "$host" "context.hostname")
      "$remote_addr" "context.headers[\"x-forwarded-for\"] || \"unknown\"")
    "$proxy_add_x_forwarded_for" "context.headers[\"x-forwarded-for\"] || \"unknown\""

/-- `QuickJSGenerator.generateProxyHandler` (`quickjs.ts` lines 433-488).
The `new URL(…)` call sits inside `try { … } catch`: an invalid upstream URL
degrades to an emitted `createResponse(502, "Bad Gateway - Invalid upstream
URL")` for this location only; the function itself never throws. -/
def quickjsGenerateProxyHandler (proxyPass : String) (location : LocationBlock) :
    List QJSLine :=
  let intro := [QJSLine.comment s!"Proxy to: {proxyPass}"]
  let stripped := stripNginxVars proxyPass
  match jsParseURL stripped with
  | none =>
    intro ++
    [ .comment s!"Invalid proxy URL: {proxyPass}",
      .createResponse (some 502) "Bad Gateway - Invalid upstream URL" ]
  | some upstreamUrl =>
    let port :=
      if upstreamUrl.port ≠ "" then upstreamUrl.port
      else if upstreamUrl.protocol = "https:" then "443" else "80"
    let headerLines :=
      (location.directives.proxy_set_header.getD []).map (fun hv =>
        let headerValue := quickjsSubstHeaderValue hv.2
        QJSLine.headerAssign (strLower hv.1) (jsIncludes headerValue "context.") headerValue)
    intro ++
    [ .comment "Upstream configuration",
      .upstream upstreamUrl.hostname port upstreamUrl.protocol upstreamUrl.pathname,
      .comment "Build proxy request (QuickJS optimized)" ] ++
    (if (location.directives.proxy_set_header.getD []).isEmpty then []
     else [QJSLine.comment "Set proxy headers"]) ++
    headerLines ++
    [ .comment "Execute proxy request (platform-specific implementation needed)",
      .proxyCall ]

/-- The body of one QuickJS location `if`-block (`quickjs.ts` lines
397-405): `return` first, then `proxy_pass`, then `rewrite`; nothing
otherwise. -/
def quickjsLocationBody (location : LocationBlock) : List QJSLine :=
  if location.directives.ret.isSome then
    quickjsGenerateReturnHandler (location.directives.ret.getD { code := none })
  else if jsTruthyStr location.directives.proxy_pass then
    quickjsGenerateProxyHandler (location.directives.proxy_pass.getD "") location
  else if location.directives.rewrite.isSome then
    [.rewriteNote]
  else
    []

/-- One QuickJS location handler. -/
structure QJSLocationHandler where
  path : String
  cond : PathCond
  body : List QJSLine
  deriving Repr, DecidableEq

/-- `QuickJSGenerator.generateLocationHandlers` (`quickjs.ts` lines 389-411):
declaration order, condition from `convertNginxPathToJs`; total — no
exception can escape. -/
def quickjsGenerateLocationHandlers (locations : List LocationBlock) :
    List QJSLocationHandler :=
  locations.map (fun location =>
    { path := location.path
      cond := quickjsConvertNginxPathToJs location.path
      body := quickjsLocationBody location })

/-- One QuickJS server handler. -/
structure QJSServerHandler where
  cond : HostCond
  locations : List QJSLocationHandler
  deriving Repr, DecidableEq

/-- `QuickJSGenerator.generateServerHandlers` (`quickjs.ts` lines 354-369). -/
def quickjsGenerateServerHandlers (config : ParsedNginxConfig) :
    List QJSServerHandler :=
  config.servers.map (fun server =>
    { cond := quickjsGenerateHostCondition (extractHostPatterns server)
      locations := quickjsGenerateLocationHandlers server.locations })

/-- The assembled QuickJS output (`generateQuickJSCode`, `quickjs.ts` lines
323-352), structured. -/
structure QJSOutput where
  header : String
  servers : List QJSServerHandler
  deriving Repr, DecidableEq

/-- `QuickJSGenerator.generate` (`quickjs.ts` lines 271-283). -/
def quickjsGenerate (config : ParsedNginxConfig) : Except String QJSOutput :=
  let validation := quickjsValidate config
  if ¬validation.valid then
    .error (validationFailureMsg validation.errors)
  else
    .ok { header := specGenerateHeader
          servers := quickjsGenerateServerHandlers config }

/-! ## CloudFlare Workers code generation (`cloudflare.ts`) -/

/-- `BaseGenerator.isStaticLocation`.  Modelled from the spec: the helper is
in the missing `base-generator.ts`; §4.2 item 4 identifies static locations
by "static-file indicators (`root`/`alias` present)". -/
def isStaticLocation (l : LocationBlock) : Bool :=
  staticIndicator l

/-- One action emitted by `CloudFlareGenerator.generateLocationAction`
(`cloudflare.ts` lines 152-197). -/
inductive CFAction where
  | redirect (url : String) (code : Int)              -- Response.redirect
  | rewriteRedirect (regex replacement : String) (code : Int)
  | proxy (backend : String)                          -- proxyRequest(…)
  | staticNotImpl                                     -- 501 placeholder
  | noActionDefined                                   -- 500 default
  deriving Repr, DecidableEq

/-- Is `returnDir.code >= 300 && returnDir.code < 400` (false for `NaN`)? -/
def isRedirectCode (code : Option Int) : Bool :=
  match code with
  | some n => 300 ≤ n ∧ n < 400
  | none => false

/-- The conditional-redirect blocks emitted for `rewrite` rules flagged
`redirect` or `permanent` (`cloudflare.ts` lines 167-177). -/
def cfRewriteActions (rules : List RewriteRule) : List CFAction :=
  rules.flatMap (fun rule =>
    let flags := rule.flags.getD []
    if flags.contains "redirect" || flags.contains "permanent" then
      [CFAction.rewriteRedirect rule.regex rule.replacement
        (if flags.contains "permanent" then 301 else 302)]
    else [])

/-- `CloudFlareGenerator.generateLocationAction` (`cloudflare.ts` lines
152-197): 3xx `return` wins outright; otherwise flagged rewrites accumulate,
then the first of `proxy_pass` / static indicator / default decides. -/
def cloudflareGenerateLocationAction (location : LocationBlock) : List CFAction :=
  match location.directives.ret with
  | some rd =>
    if isRedirectCode rd.code then
      [.redirect (jsOrElse rd.url (jsOrElse rd.text "/")) (rd.code.getD 0)]
    else cfActionsAfterReturn location
  | none => cfActionsAfterReturn location
where
  /-- The fall-through part after the `return` check. -/
  cfActionsAfterReturn (location : LocationBlock) : List CFAction :=
    let rewrites := cfRewriteActions (location.directives.rewrite.getD [])
    if jsTruthyStr location.directives.proxy_pass then
      rewrites ++ [.proxy (location.directives.proxy_pass.getD "")]
    else if isStaticLocation location then
      rewrites ++ [.staticNotImpl]
    else
      rewrites ++ [.noActionDefined]

/-- One CloudFlare location handler. -/
structure CFLocationHandler where
  path : String
  cond : PathCond
  actions : List CFAction
  deriving Repr, DecidableEq

/-- `CloudFlareGenerator.generateLocationHandlers` (`cloudflare.ts` lines
107-129): sorted by the specificity comparator, then condition and actions
per location. -/
def cloudflareGenerateLocationHandlers (locations : List LocationBlock) :
    List CFLocationHandler :=
  (sortLocations locations).map (fun location =>
    { path := location.path
      cond := cloudflareGenerateLocationCondition location
      actions := cloudflareGenerateLocationAction location })

/-- One CloudFlare server handler. -/
structure CFServerHandler where
  cond : HostCond
  locations : List CFLocationHandler
  deriving Repr, DecidableEq

/-- The assembled CloudFlare Workers output (`generateWorkerCode`,
`cloudflare.ts` lines 50-70), structured. -/
structure CFOutput where
  header : String
  servers : List CFServerHandler
  deriving Repr, DecidableEq

/-- `CloudFlareGenerator.generate` (`cloudflare.ts` lines 8-20). -/
def cloudflareGenerate (config : ParsedNginxConfig) : Except String CFOutput :=
  let validation := cloudflareValidate config
  if ¬validation.valid then
    .error (validationFailureMsg validation.errors)
  else
    .ok { header := specGenerateHeader
          servers := config.servers.map (fun server =>
            { cond := cloudflareGenerateHostCondition (extractHostPatterns server)
              locations := cloudflareGenerateLocationHandlers server.locations }) }

/-! ## Next.js middleware code generation (`nextjs-middleware.ts`) -/

/-- One action emitted by `NextJSGenerator.generateLocationAction`
(`nextjs-middleware.ts` lines 160-224). -/
inductive NextAction where
  | redirect (url : String) (code : Int)              -- NextResponse.redirect
  | rewriteRedirect (regex replacement : String) (code : Int)
  | rewriteInternal (regex replacement : String)      -- NextResponse.rewrite
  | proxyRewrite (backend : String)                   -- rewrite to backend URL
  | staticNext                                        -- public-directory note
  | setHeaders (hs : List (String × Option String))   -- headers then next()
  | next                                              -- NextResponse.next()
  deriving Repr, DecidableEq

/-- The rewrite blocks emitted by the Next.js generator
(`nextjs-middleware.ts` lines 175-191): flagged rules redirect, unflagged
rules rewrite internally. -/
def nextRewriteActions (rules : List RewriteRule) : List NextAction :=
  rules.map (fun rule =>
    let flags := rule.flags.getD []
    if flags.contains "redirect" || flags.contains "permanent" then
      .rewriteRedirect rule.regex rule.replacement
        (if flags.contains "permanent" then 301 else 302)
    else
      .rewriteInternal rule.regex rule.replacement)

/-- `NextJSGenerator.generateLocationAction` (`nextjs-middleware.ts` lines
160-224): 3xx `return` wins; otherwise rewrites accumulate and the first of
`proxy_pass` / static indicator / `add_header` / default decides. -/
def nextjsGenerateLocationAction (location : LocationBlock) : List NextAction :=
  match location.directives.ret with
  | some rd =>
    if isRedirectCode rd.code then
      [.redirect (jsOrElse rd.url (jsOrElse rd.text "/")) (rd.code.getD 0)]
    else nextActionsAfterReturn location
  | none => nextActionsAfterReturn location
where
  /-- The fall-through part after the `return` check. -/
  nextActionsAfterReturn (location : LocationBlock) : List NextAction :=
    let rewrites := nextRewriteActions (location.directives.rewrite.getD [])
    if jsTruthyStr location.directives.proxy_pass then
      rewrites ++ [.proxyRewrite (location.directives.proxy_pass.getD "")]
    else if isStaticLocation location then
      rewrites ++ [.staticNext]
    else if location.directives.add_header.isSome then
      rewrites ++ [.setHeaders (location.directives.add_header.getD [])]
    else
      rewrites ++ [.next]

/-- One Next.js location handler. -/
structure NextLocationHandler where
  path : String
  cond : PathCond
  actions : List NextAction
  deriving Repr, DecidableEq

/-- `NextJSGenerator.generateLocationHandlers` (`nextjs-middleware.ts` lines
115-137): same specificity sort as the CloudFlare generator. -/
def nextjsGenerateLocationHandlers (locations : List LocationBlock) :
    List NextLocationHandler :=
  (sortLocations locations).map (fun location =>
    { path := location.path
      cond := nextjsGenerateLocationCondition location
      actions := nextjsGenerateLocationAction location })

/-- One Next.js server handler. -/
structure NextServerHandler where
  cond : HostCond
  locations : List NextLocationHandler
  deriving Repr, DecidableEq

/-- The assembled Next.js middleware output (`generateMiddlewareFunction`,
`nextjs-middleware.ts` lines 64-78), structured. -/
structure NextOutput where
  header : String
  servers : List NextServerHandler
  deriving Repr, DecidableEq

/-- `NextJSGenerator.generate` (`nextjs-middleware.ts` lines 8-24). -/
def nextjsGenerate (config : ParsedNginxConfig) : Except String NextOutput :=
  let validation := nextjsValidate config
  if ¬validation.valid then
    .error (validationFailureMsg validation.errors)
  else
    .ok { header := specGenerateHeader
          servers := config.servers.map (fun server =>
            { cond := nextjsGenerateHostCondition (extractHostPatterns server)
              locations := nextjsGenerateLocationHandlers server.locations }) }

/-! ## The UCL transformer (`src/converters/nginx-to-ucl-transformer.ts`)

Only the argument-handling slices relevant to the claims are embedded: the
location pattern/modifier recognition of `transformLocation` and the
`transformReturn` handler with its `parseValue` helper.  (The recursive
transformation of nested directives into the UCL object is independent of
both and is not needed here.) -/

/-- The value produced by `parseValue` (`nginx-to-ucl-transformer.ts` lines
518-548).  A digits-only string parses to a number; `\d+.\d+` goes through
`parseFloat` (represented here by its whole and fractional digit strings —
no claim depends on float arithmetic); size/time-suffixed strings are kept as
strings; `on`/`true`/`off`/`false` become booleans; anything else stays a
string. -/
inductive UCLValue where
  | num (n : Nat)
  | decimal (whole frac : String)
  | boolean (b : Bool)
  | str (s : String)
  deriving Repr, DecidableEq

/-- Does the string match `/^\d+$/`? -/
def allDigits (s : String) : Bool :=
  ¬s.isEmpty ∧ s.toList.all Char.isDigit

/-- Does the string match `/^\d+\.\d+$/` (digits, one dot, digits)? -/
def decimalShape (value : String) : Bool :=
  let cs := value.toList
  let whole := cs.takeWhile Char.isDigit
  match cs.drop whole.length with
  | '.' :: frac => ¬whole.isEmpty ∧ ¬frac.isEmpty ∧ frac.all Char.isDigit
  | _ => false

/-- `parseValue` (`nginx-to-ucl-transformer.ts` lines 518-548). -/
def parseValue (value : String) : UCLValue :=
  if allDigits value then
    .num (value.toList.foldl (fun a c => a * 10 + (c.toNat - '0'.toNat)) 0)
  else if decimalShape value then
    .decimal (String.mk (value.toList.takeWhile Char.isDigit))
      (strDrop value ((value.toList.takeWhile Char.isDigit).length + 1))
  else parseValueTail value
where
  /-- The branches after the two numeric regex tests. -/
  parseValueTail (value : String) : UCLValue :=
    let body := String.mk value.toList.dropLast
    let last := value.toList.getLast?
    if allDigits body ∧ (last.map (fun c => "kmgKMG".toList.contains c)).getD false then
      .str value
    else if allDigits body ∧ (last.map (fun c => "smhdSMHD".toList.contains c)).getD false then
      .str value
    else if value = "on" ∨ value = "true" then .boolean true
    else if value = "off" ∨ value = "false" then .boolean false
    else .str value

/-- The pattern/modifier head of the UCL object built by `transformLocation`
(`nginx-to-ucl-transformer.ts` lines 357-379). -/
structure UCLLocationHead where
  modifier : Option String := none
  pattern : Option String := none
  deriving Repr, DecidableEq

/-- The argument handling of `transformLocation`: with exactly one argument
it is the pattern; with two or more, the **first** argument is stored as the
modifier (whatever it is — membership in `=`, `~`, `~*`, `^~` is not
checked) and the second as the pattern. -/
def transformLocationPattern (args : List String) : UCLLocationHead :=
  match args with
  | [] => {}
  | [a] => { pattern := some a }
  | a :: b :: _ => { modifier := some a, pattern := some b }

/-- The UCL `return` object built by `transformReturn`. -/
structure UCLReturn where
  code : UCLValue
  url : Option String := none
  deriving Repr, DecidableEq

/-- `transformReturn` (`nginx-to-ucl-transformer.ts` lines 437-449): `null`
on no arguments; otherwise `code := parseValue(args[0])` and, when more
arguments exist, `url := args.slice(1).join(' ')` — **all** remaining
arguments, joined. -/
def transformReturn (args : List String) : Option UCLReturn :=
  match args with
  | [] => none
  | a :: rest =>
    some { code := parseValue a
           url := if rest.isEmpty then none else some (String.intercalate " " rest) }

/-! ## Specification-side definitions used in theorem statements -/

/-- The value of the textually last `add_header` directive for header name
`n` in a directive list (later directives take precedence); `none` when no
`add_header` for `n` occurs.  The stored value is `args[1]`, which can itself
be absent. -/
def lastAddHeaderValue (n : String) : List NginxDirective → Option (Option String)
  | [] => none
  | ld :: ds =>
    match lastAddHeaderValue n ds with
    | some v => some v
    | none =>
      if ld.directive = "add_header" ∧ ld.args.headD "undefined" = n
      then some (ld.args.get? 1) else none

/-- Does a location trigger the Lambda@Edge capability error? -/
def lambdaEdgeOffending (l : LocationBlock) : Bool :=
  jsTruthyStr l.directives.fastcgi_pass || jsTruthyStr l.directives.uwsgi_pass

/-- Number of validation errors the Lambda@Edge generator must report: one
per location with `fastcgi_pass`/`uwsgi_pass`, over all servers. -/
def lambdaEdgeErrorCount (config : ParsedNginxConfig) : Nat :=
  (config.servers.map (fun s =>
    (s.locations.map (fun l => if lambdaEdgeOffending l then 1 else 0)).sum)).sum

/-- Number of QuickJS validation errors a location is due: one for
`fastcgi_pass`/`uwsgi_pass` and one for a `proxy_pass` mentioning `fs.`. -/
def quickjsLocErrCount (l : LocationBlock) : Nat :=
  (if jsTruthyStr l.directives.fastcgi_pass || jsTruthyStr l.directives.uwsgi_pass
   then 1 else 0) +
  (if jsTruthyStr l.directives.proxy_pass ∧ jsIncludes (l.directives.proxy_pass.getD "") "fs."
   then 1 else 0)

/-- Number of validation errors the QuickJS generator must report. -/
def quickjsErrorCount (config : ParsedNginxConfig) : Nat :=
  (config.servers.map (fun s => (s.locations.map quickjsLocErrCount).sum)).sum

/-- "`a` may be emitted before `b`" in the specificity order: exact (`=`)
locations first, then descending path length. -/
def specBefore (a b : LocationBlock) : Prop :=
  locationCmp a b ≤ 0

/-! ## Helper lemmas -/

/-- Left-biased choice on `Option`, used to state fold lemmas. -/
def optOr {α : Type} (a b : Option α) : Option α :=
  match a with
  | some v => some v
  | none => b

@[simp] theorem optOr_some {α : Type} (v : α) (b : Option α) :
    optOr (some v) b = some v := rfl

@[simp] theorem optOr_none {α : Type} (b : Option α) : optOr none b = b := rfl

theorem objGet_objSet {α : Type} (m : List (String × α)) (k k' : String) (v : α) :
    objGet (objSet m k v) k' = if k' = k then some v else objGet m k' := by
  induction m with
  | nil =>
    by_cases h : k = k'
    · simp [objSet, objGet, h]
    · have h' : ¬k' = k := fun e => h e.symm
      simp [objSet, objGet, h, h']
  | cons hd t ih =>
    obtain ⟨k1, v1⟩ := hd
    by_cases h1 : k1 = k
    · subst h1
      by_cases h2 : k1 = k'
      · subst h2
        simp [objSet, objGet]
      · have h2' : ¬k' = k1 := fun e => h2 e.symm
        simp [objSet, objGet, h2, h2']
    · by_cases h2 : k1 = k'
      · subst h2
        have h1' : ¬k1 = k := h1
        simp [objSet, objGet, h1', ih]
      · simp [objSet, objGet, h1, h2, ih]

/-- The `add_header` accumulation of the location-directive fold: the lookup
of a key is the last value written for it, falling back to the initial
state. -/
theorem addHeader_foldl (ds : List NginxDirective) (dirs : LocationDirectives)
    (n : String) :
    objGet (((ds.foldl convertLocationDirective dirs).add_header).getD []) n
      = optOr (lastAddHeaderValue n ds) (objGet (dirs.add_header.getD []) n) := by
  induction ds generalizing dirs with
  | nil => simp [lastAddHeaderValue]
  | cons ld ds ih =>
    rw [List.foldl_cons, ih]
    rcases hlast : lastAddHeaderValue n ds with _ | v
    · rcases ld with ⟨nm, args, blk⟩
      by_cases hd : nm = "add_header"
      · subst hd
        have harw : (convertLocationDirective dirs (.mk "add_header" args blk)).add_header
            = some (objSet (dirs.add_header.getD []) (args.headD "undefined") (args.get? 1)) := rfl
        rw [harw]
        simp only [lastAddHeaderValue, hlast, NginxDirective.directive, NginxDirective.args,
          eq_self_iff_true, true_and, Option.getD_some, optOr_none]
        rw [objGet_objSet]
        by_cases hk : n = args.headD "undefined"
        · rw [if_pos hk, if_pos hk.symm, optOr_some]
        · rw [if_neg hk, if_neg (fun e : args.headD "undefined" = n => hk e.symm), optOr_none]
      · have harw : (convertLocationDirective dirs (.mk nm args blk)).add_header
            = dirs.add_header := by
          simp only [convertLocationDirective, NginxDirective.directive]
          split_ifs <;> simp_all
        rw [harw]
        simp only [lastAddHeaderValue, hlast, NginxDirective.directive]
        rw [if_neg (fun hcon => hd hcon.1), optOr_none]
    · simp only [lastAddHeaderValue, hlast, optOr_some]

/-- Characterization of the sort comparator: `a` may precede `b` iff `a` is
exact and `b` is not, or they agree on exactness and `a`'s path is at least
as long. -/
theorem locationCmp_le_iff (a b : LocationBlock) :
    locationCmp a b ≤ 0 ↔
      (a.modifier = some .exactEq ∧ ¬b.modifier = some .exactEq) ∨
      ((a.modifier = some .exactEq ↔ b.modifier = some .exactEq) ∧
        b.path.length ≤ a.path.length) := by
  unfold locationCmp
  by_cases ha : a.modifier = some .exactEq <;>
    by_cases hb : b.modifier = some .exactEq <;>
      simp [ha, hb] <;> omega

/-- The specificity order is total. -/
theorem specBefore_total (a b : LocationBlock) : specBefore a b ∨ specBefore b a := by
  unfold specBefore
  rw [locationCmp_le_iff, locationCmp_le_iff]
  by_cases ha : a.modifier = some .exactEq <;>
    by_cases hb : b.modifier = some .exactEq <;>
      simp [ha, hb] <;> omega

/-- The specificity order is transitive. -/
theorem specBefore_trans {a b c : LocationBlock}
    (h1 : specBefore a b) (h2 : specBefore b c) : specBefore a c := by
  unfold specBefore at h1 h2 ⊢
  rw [locationCmp_le_iff] at h1 h2 ⊢
  by_cases ha : a.modifier = some .exactEq <;>
    by_cases hb : b.modifier = some .exactEq <;>
      by_cases hc : c.modifier = some .exactEq <;>
        simp [ha, hb, hc] at h1 h2 ⊢ <;> omega

/-- Membership through `sortInsert`. -/
theorem mem_sortInsert (e x : LocationBlock) (l : List LocationBlock) :
    x ∈ sortInsert e l ↔ x = e ∨ x ∈ l := by
  induction l with
  | nil => simp [sortInsert]
  | cons hd t ih =>
    simp only [sortInsert]
    split_ifs with h
    · simp [ih]
      tauto
    · simp

/-- `sortInsert` permutes a cons. -/
theorem sortInsert_perm (e : LocationBlock) (l : List LocationBlock) :
    List.Perm (sortInsert e l) (e :: l) := by
  induction l with
  | nil => rfl
  | cons hd t ih =>
    simp only [sortInsert]
    split_ifs with h
    · exact ((ih.cons hd).trans (List.Perm.swap e hd t)).symm.symm
    · rfl

/-- `sortInsert` preserves sortedness (pairwise `specBefore`). -/
theorem pairwise_sortInsert (e : LocationBlock) (l : List LocationBlock)
    (h : l.Pairwise specBefore) : (sortInsert e l).Pairwise specBefore := by
  induction l with
  | nil => simp [sortInsert]
  | cons hd t ih =>
    simp only [sortInsert]
    split_ifs with hle
    · refine List.Pairwise.cons ?_ (ih (List.Pairwise.sublist (List.sublist_cons_self hd t) h))
      intro y hy
      rcases (mem_sortInsert e y t).mp hy with rfl | hyt
      · exact hle
      · exact (List.pairwise_cons.mp h).1 y hyt
    · refine List.Pairwise.cons ?_ h
      intro y hy
      have he : specBefore e hd := by
        rcases specBefore_total hd e with h1 | h2
        · exact absurd h1 hle
        · exact h2
      rcases List.mem_cons.mp hy with rfl | hyt
      · exact he
      · exact specBefore_trans he ((List.pairwise_cons.mp h).1 y hyt)

/-- The result of the generators' sort is pairwise in the specificity
order. -/
theorem sortLocations_pairwise (locs : List LocationBlock) :
    (sortLocations locs).Pairwise specBefore := by
  suffices hgen : ∀ (ds acc : List LocationBlock), acc.Pairwise specBefore →
      (ds.foldl (fun acc e => sortInsert e acc) acc).Pairwise specBefore by
    exact hgen locs [] (List.Pairwise.nil)
  intro ds
  induction ds with
  | nil => intro acc h; exact h
  | cons e t ih =>
    intro acc h
    exact ih (sortInsert e acc) (pairwise_sortInsert e acc h)

/-- The generators' sort is a permutation of the input locations. -/
theorem sortLocations_perm (locs : List LocationBlock) :
    List.Perm (sortLocations locs) locs := by
  suffices hgen : ∀ (ds acc : List LocationBlock),
      List.Perm (ds.foldl (fun acc e => sortInsert e acc) acc) (ds ++ acc) by
    simpa using hgen locs []
  intro ds
  induction ds with
  | nil => intro acc; simp
  | cons e t ih =>
    intro acc
    have h1 : (e :: t).foldl (fun acc e => sortInsert e acc) acc
        = t.foldl (fun acc e => sortInsert e acc) (sortInsert e acc) := by simp
    rw [h1]
    exact (ih (sortInsert e acc)).trans
      ((List.Perm.append_left t (sortInsert_perm e acc)).trans List.perm_middle)

/-- Length of a `flatMap` over an enumerated list whose element lists have an
index-independent length. -/
theorem length_enumFrom_flatMap {α β : Type} (f : Nat × α → List β) (g : α → Nat)
    (hf : ∀ i a, (f (i, a)).length = g a) :
    ∀ (l : List α) (k : Nat), ((List.enumFrom k l).flatMap f).length = (l.map g).sum := by
  intro l
  induction l with
  | nil => intro k; simp
  | cons a t ih =>
    intro k
    simp [List.enumFrom, List.flatMap_cons, hf k a, ih (k + 1)]

/-- The top-level fold of the builder never touches `upstreams`. -/
theorem upstreams_foldl (ds : List NginxDirective) (c : NginxConfig) :
    (ds.foldl convertTopDirective c).upstreams = c.upstreams := by
  induction ds generalizing c with
  | nil => rfl
  | cons d t ih =>
    rw [List.foldl_cons, ih]
    rcases d with ⟨nm, args, blk⟩
    rcases blk with _ | blk <;>
      simp only [convertTopDirective, NginxDirective.directive, NginxDirective.block] <;>
        split_ifs <;> rfl

/-! ## Claim theorems -/

/-- Claim C3, counterexample: for the location directive with arguments
`["=", "/exact"]` the Configuration Model Builder stores the modifier token
itself as the path and leaves the modifier field absent — it does not
recognize the leading `'='` positionally as the claim states. -/
theorem claimC3_counterexample :
    (convertLocationBlock (.mk "location" ["=", "/exact"] (some []))).path = "=" ∧
    (convertLocationBlock (.mk "location" ["=", "/exact"] (some []))).path ≠ "/exact" ∧
    (convertLocationBlock (.mk "location" ["=", "/exact"] (some []))).modifier = none := by
  refine ⟨rfl, ?_, rfl⟩
  decide

/-- Claim C3, amended: the Configuration Model Builder
(`convertLocationBlock`) takes the path from the first argument
unconditionally and never stores a modifier (the modifier field of every
built `LocationBlock` is absent; a leading modifier token becomes the path).
Only the separate UCL transformer's `transformLocation` recognizes a leading
token positionally: with one argument it is the pattern, with two or more the
first argument — whatever it is — becomes the modifier and the second the
pattern. -/
theorem claimC3_theorem :
    (∀ d : NginxDirective, (convertLocationBlock d).modifier = none ∧
        (convertLocationBlock d).path = jsOrElse d.args.head? "/") ∧
    (∀ a : String, transformLocationPattern [a] = { modifier := none, pattern := some a }) ∧
    (∀ (a b : String) (rest : List String),
        transformLocationPattern (a :: b :: rest)
          = { modifier := some a, pattern := some b }) :=
  ⟨fun _ => ⟨rfl, rfl⟩, fun _ => rfl, fun _ _ _ => rfl⟩

/-- Claim C6, counterexample: a `return` directive with the three arguments
`301 https://a.example extra` is stored with `url = "https://a.example"`;
the third argument is dropped, not joined. -/
theorem claimC6_counterexample :
    (convertLocationBlock (.mk "location" ["/r"]
        (some [.mk "return" ["301", "https://a.example", "extra"] none]))).directives.ret
      = some { code := some 301, url := some "https://a.example" } ∧
    (some "https://a.example" : Option String) ≠ some "https://a.example extra" := by
  refine ⟨by decide, by decide⟩

/-- Claim C6, amended: the Configuration Model Builder's location-directive
conversion stores only the **second** argument of a `return` directive as the
url (third and later arguments are dropped); the join-all-remaining-arguments
behaviour belongs to the separate UCL transformer's `transformReturn`. -/
theorem claimC6_theorem :
    (∀ (dirs : LocationDirectives) (a0 a1 : String) (rest : List String)
        (blk : Option (List NginxDirective)),
        convertLocationDirective dirs (.mk "return" (a0 :: a1 :: rest) blk)
          = { dirs with ret := some { code := jsParseInt a0, url := some a1 } }) ∧
    (∀ (a : String) (rest : List String), rest ≠ [] →
        transformReturn (a :: rest)
          = some { code := parseValue a, url := some (String.intercalate " " rest) }) := by
  constructor
  · intro dirs a0 a1 rest blk
    rfl
  · intro a rest h
    simp [transformReturn, h]

/-- Claim C6, witness: the amended theorem applied to the three-argument
`return 301 https://a.example extra`. -/
theorem claimC6_witness :
    convertLocationDirective {} (.mk "return" ["301", "https://a.example", "extra"] none)
      = { ret := some { code := some 301, url := some "https://a.example" } } ∧
    transformReturn ["301", "https://a.example", "extra"]
      = some { code := .num 301, url := some "https://a.example extra" } := by
  constructor
  · rw [claimC6_theorem.1 {} "301" "https://a.example" ["extra"] none]
    decide
  · rw [claimC6_theorem.2 "301" ["https://a.example", "extra"] (by decide)]
    decide

/-- Claim C7, counterexample: a `listen` directive with **no** arguments is
silently given port 80 by the builder (the source parses `args[0] || '80'`),
contradicting "does not silently substitute port 80" for the absent case. -/
theorem claimC7_counterexample :
    (convertServerBlock (.mk "server" [] (some [.mk "listen" [] none]))).listen
      = [{ port := some 80 }] := by
  decide

/-- Claim C7, amended: when the first `listen` argument is absent (or empty)
the builder silently substitutes port 80; when it is present but not parsable
as an integer the stored port is `NaN` (modelled `none`) — an
implementation-defined value, not 80; no warning is ever recorded (the
builder's `metadata.warnings` is the constant `[]`); the builder itself never
throws (it is a total function by construction). -/
theorem claimC7_theorem :
    (∀ (s : ServerBlock) (blk : Option (List NginxDirective)),
        convertServerDirective s (.mk "listen" [] blk)
          = { s with listen := s.listen ++ [{ port := some 80 }] }) ∧
    (∀ (s : ServerBlock) (arg : String) (rest : List String)
        (blk : Option (List NginxDirective)),
        jsParseInt arg = none → ¬arg.isEmpty →
        convertServerDirective s (.mk "listen" (arg :: rest) blk)
          = { s with listen := s.listen ++ [{ port := none }] }) ∧
    (∀ pr : ParseResult, (convertCrossplaneToConfig pr).metadata.warnings = []) := by
  refine ⟨?_, ?_, fun _ => rfl⟩
  · intro s blk
    rfl
  · intro s arg rest blk hparse hne
    have h1 : jsOrElse (arg :: rest).head? "80" = arg := by
      simp [jsOrElse, hne]
    simp only [convertServerDirective, NginxDirective.directive, NginxDirective.args,
      eq_self_iff_true, if_true, h1, hparse]

/-- Claim C7, witness: the amended theorem applied to `listen ssl;` (a
non-numeric first argument). -/
theorem claimC7_witness :
    convertServerDirective { listen := [], locations := [] }
        (.mk "listen" ["ssl"] none)
      = { listen := [{ port := none }], locations := [] } := by
  rw [claimC7_theorem.2.1 { listen := [], locations := [] } "ssl" [] none
    (by decide) (by decide)]
  decide

/-- Claim C9: for every location directive tree and every header name, the
lookup of that name in the built `add_header` map is exactly the value of the
textually last `add_header` directive for that name — the later occurrence
wins. -/
theorem claimC9_theorem (d : NginxDirective) (n : String) :
    objGet (((convertLocationBlock d).directives.add_header).getD []) n
      = lastAddHeaderValue n (d.block.getD []) := by
  have h : (convertLocationBlock d).directives
      = (d.block.getD []).foldl convertLocationDirective {} := rfl
  rw [h, addHeader_foldl]
  rcases lastAddHeaderValue n (d.block.getD []) with _ | v <;> rfl

/-- Claim C10: for every crossplane parse result the built configuration has
an empty `upstreams` array (upstream blocks are never converted), and only
the first file entry of the parse result contributes servers. -/
theorem claimC10_theorem :
    (∀ pr : ParseResult, (convertCrossplaneToConfig pr).upstreams = []) ∧
    (∀ (f : FileEntry) (rest : List FileEntry),
        (convertCrossplaneToConfig ⟨f :: rest⟩).servers
          = (convertCrossplaneToConfig ⟨[f]⟩).servers) := by
  constructor
  · intro pr
    rcases hc : pr.config.head? with _ | fe
    · simp [convertCrossplaneToConfig, hc]
    · rcases hp : fe.parsed with _ | ds
      · simp [convertCrossplaneToConfig, hc, hp]
      · simp [convertCrossplaneToConfig, hc, hp, upstreams_foldl]
  · intro f rest
    rfl

/-- Claim C1, counterexample: on the pattern list `["*.example.com"]` and the
hostname `x.example.com` the CloudFlare host condition is true but the
Lambda@Edge host condition is false — the CloudFlare/Next.js wildcard
conversion maps `*` to `.*` while the Lambda@Edge/QuickJS conversion then
escapes every dot including the inserted one, giving `\.*` (zero or more
literal dots).  The four generators' helpers therefore do not denote the
same predicate. -/
theorem claimC1_counterexample :
    evalHostCond (cloudflareGenerateHostCondition ["*.example.com"]) "x.example.com" = true ∧
    evalHostCond (lambdaEdgeGenerateHostCondition ["*.example.com"]) "x.example.com" = false := by
  refine ⟨by decide, by decide⟩

/-- Claim C1, amended: the helpers are identical only within two pairs.
CloudFlare and Next.js have pointwise-equal host and path condition
semantics, and Lambda@Edge and QuickJS have pointwise-equal host and path
condition semantics; but the two pairs differ: the wildcard-to-regex
conversions denote different hostname predicates, and the CloudFlare/Next.js
path condition is keyed on the modifier field while Lambda@Edge/QuickJS
parse the path string only, so an `'='`-modifier location also gets different
path predicates. -/
theorem claimC1_theorem :
    (∀ (patterns : List String) (hostname : String),
        evalHostCond (cloudflareGenerateHostCondition patterns) hostname
          = evalHostCond (nextjsGenerateHostCondition patterns) hostname) ∧
    (∀ (patterns : List String) (hostname : String),
        evalHostCond (lambdaEdgeGenerateHostCondition patterns) hostname
          = evalHostCond (quickjsGenerateHostCondition patterns) hostname) ∧
    ¬(∀ (patterns : List String) (hostname : String),
        evalHostCond (cloudflareGenerateHostCondition patterns) hostname
          = evalHostCond (lambdaEdgeGenerateHostCondition patterns) hostname) ∧
    (∀ (location : LocationBlock) (uri : String),
        evalPathCond (cloudflareGenerateLocationCondition location) uri
          = evalPathCond (nextjsGenerateLocationCondition location) uri) ∧
    (∀ (path uri : String),
        evalPathCond (lambdaEdgeConvertNginxPathToJs path) uri
          = evalPathCond (quickjsConvertNginxPathToJs path) uri) ∧
    ¬(∀ (location : LocationBlock) (uri : String),
        evalPathCond (cloudflareGenerateLocationCondition location) uri
          = evalPathCond (lambdaEdgeConvertNginxPathToJs location.path) uri) := by
  refine ⟨fun _ _ => rfl, fun _ _ => rfl, ?_, fun _ _ => rfl, fun _ _ => rfl, ?_⟩
  · intro h
    exact absurd (h ["*.example.com"] "x.example.com") (by decide)
  · intro h
    exact absurd (h { path := "/x", modifier := some .exactEq } "/x/y") (by decide)

/-- Claim C2, counterexample: the Lambda@Edge generator emits the condition
blocks of the locations `/` and `/api` in declaration order — `/` first —
not in the claimed specificity order with `/api` first. -/
theorem claimC2_counterexample :
    (lambdaEdgeLocationHandlerOrder
        [{ path := "/" }, { path := "/api" }]).map Prod.fst = ["/", "/api"] ∧
    (["/", "/api"] : List String) ≠ ["/api", "/"] := by
  refine ⟨by decide, by decide⟩

/-- Claim C2, amended: only the CloudFlare and Next.js generators emit the
per-location blocks in specificity order (their emitted sequence is the
stable sort of the locations: pairwise `'='`-first-then-descending-length,
and a permutation of the declaration list), and for the two prefix locations
`/` and `/api` they check `/api` first; the Lambda@Edge and QuickJS
generators emit the blocks in declaration order, so there `/` is checked
first. -/
theorem claimC2_theorem :
    (∀ locs : List LocationBlock,
        cloudflareLocationHandlerOrder locs
          = (sortLocations locs).map
              (fun l => (l.path, cloudflareGenerateLocationCondition l)) ∧
        nextjsLocationHandlerOrder locs
          = (sortLocations locs).map
              (fun l => (l.path, nextjsGenerateLocationCondition l)) ∧
        (sortLocations locs).Pairwise specBefore ∧
        List.Perm (sortLocations locs) locs) ∧
    (∀ locs : List LocationBlock,
        lambdaEdgeLocationHandlerOrder locs
          = locs.map (fun l => (l.path, lambdaEdgeConvertNginxPathToJs l.path)) ∧
        quickjsLocationHandlerOrder locs
          = locs.map (fun l => (l.path, quickjsConvertNginxPathToJs l.path))) ∧
    (cloudflareLocationHandlerOrder [{ path := "/" }, { path := "/api" }]).map Prod.fst
      = ["/api", "/"] ∧
    (lambdaEdgeLocationHandlerOrder [{ path := "/" }, { path := "/api" }]).map Prod.fst
      = ["/", "/api"] := by
  refine ⟨fun locs => ⟨rfl, rfl, sortLocations_pairwise locs, sortLocations_perm locs⟩,
    fun locs => ⟨rfl, rfl⟩, by decide, by decide⟩

/-- Claim C8: whenever a server's `server_name` list is empty or contains the
literal `"*"`, all four generators synthesize the constant-true host
condition, which evaluates true on every hostname string. -/
theorem claimC8_theorem (server : ServerBlock) (hostname : String)
    (h : extractHostPatterns server = [] ∨ "*" ∈ extractHostPatterns server) :
    evalHostCond (cloudflareGenerateHostCondition (extractHostPatterns server)) hostname
        = true ∧
    evalHostCond (nextjsGenerateHostCondition (extractHostPatterns server)) hostname
        = true ∧
    evalHostCond (lambdaEdgeGenerateHostCondition (extractHostPatterns server)) hostname
        = true ∧
    evalHostCond (quickjsGenerateHostCondition (extractHostPatterns server)) hostname
        = true := by
  refine ⟨?_, ?_, ?_, ?_⟩ <;>
    rcases h with h | h <;>
      simp [cloudflareGenerateHostCondition, nextjsGenerateHostCondition,
        lambdaEdgeGenerateHostCondition, quickjsGenerateHostCondition, evalHostCond, h]

/-- Claim C8, witness: a server with `server_name ["*"]` and the empty
hostname. -/
theorem claimC8_witness :
    evalHostCond (cloudflareGenerateHostCondition
        (extractHostPatterns { server_name := some ["*"] })) "" = true ∧
    evalHostCond (nextjsGenerateHostCondition
        (extractHostPatterns { server_name := some ["*"] })) "" = true ∧
    evalHostCond (lambdaEdgeGenerateHostCondition
        (extractHostPatterns { server_name := some ["*"] })) "" = true ∧
    evalHostCond (quickjsGenerateHostCondition
        (extractHostPatterns { server_name := some ["*"] })) "" = true :=
  claimC8_theorem { server_name := some ["*"] } "" (by decide)

/-- The Lambda@Edge validation errors are exactly one entry per
`fastcgi_pass`/`uwsgi_pass` location, accumulated over all servers and
locations. -/
theorem lambdaEdgeValidate_errors_length (config : ParsedNginxConfig) :
    (lambdaEdgeValidate config).errors.length = lambdaEdgeErrorCount config := by
  have h2 : (lambdaEdgeValidate config).errors
      = (List.enumFrom 0 config.servers).flatMap (fun si =>
          (List.enumFrom 0 si.2.locations).flatMap (fun lj =>
            if jsTruthyStr lj.2.directives.fastcgi_pass
                || jsTruthyStr lj.2.directives.uwsgi_pass
            then [s!"Server {si.1}, Location {lj.1}: FastCGI/uWSGI not supported in Lambda@Edge"]
            else [])) := rfl
  rw [h2]
  unfold lambdaEdgeErrorCount
  refine length_enumFrom_flatMap _
    (fun server => (server.locations.map
      (fun l => if lambdaEdgeOffending l then 1 else 0)).sum) ?_ config.servers 0
  intro i server
  refine length_enumFrom_flatMap _
    (fun l => if lambdaEdgeOffending l then 1 else 0) ?_ server.locations 0
  intro j l
  by_cases hc : (jsTruthyStr l.directives.fastcgi_pass
      || jsTruthyStr l.directives.uwsgi_pass) = true <;>
    simp [lambdaEdgeOffending, hc]

/-- The QuickJS validation errors are exactly one entry per incompatibility,
accumulated over all servers and locations. -/
theorem quickjsValidate_errors_length (config : ParsedNginxConfig) :
    (quickjsValidate config).errors.length = quickjsErrorCount config := by
  have h2 : (quickjsValidate config).errors
      = (List.enumFrom 0 config.servers).flatMap (fun si =>
          (List.enumFrom 0 si.2.locations).flatMap (fun lj =>
            (if jsTruthyStr lj.2.directives.fastcgi_pass
                || jsTruthyStr lj.2.directives.uwsgi_pass
             then [s!"Server {si.1}, Location {lj.1}: FastCGI/uWSGI not supported in QuickJS environments"]
             else []) ++
            (if jsTruthyStr lj.2.directives.proxy_pass ∧
                jsIncludes (lj.2.directives.proxy_pass.getD "") "fs." then
              [s!"Server {si.1}, Location {lj.1}: Node.js filesystem APIs not available in QuickJS"]
             else []))) := rfl
  rw [h2]
  unfold quickjsErrorCount
  refine length_enumFrom_flatMap _
    (fun server => (server.locations.map quickjsLocErrCount).sum) ?_ config.servers 0
  intro i server
  refine length_enumFrom_flatMap _ quickjsLocErrCount ?_ server.locations 0
  intro j l
  by_cases hc1 : (jsTruthyStr l.directives.fastcgi_pass
      || jsTruthyStr l.directives.uwsgi_pass) = true <;>
    by_cases hc2 : jsTruthyStr l.directives.proxy_pass = true ∧
        jsIncludes (l.directives.proxy_pass.getD "") "fs." = true <;>
      simp [quickjsLocErrCount, hc1, hc2]

/-- Claim C4: every generator's `generate()` first runs `validate()` and,
whenever `valid` is false, returns a single error whose message is
`'Validation failed: '` followed by **all** collected errors joined by
`', '` — producing no source output; and validation accumulates one error per
offending server/location pair (so two independent target-incompatible
directives yield at least two entries). -/
theorem claimC4_theorem (config : ParsedNginxConfig) :
    (¬(cloudflareValidate config).valid = true →
        cloudflareGenerate config
          = .error (validationFailureMsg (cloudflareValidate config).errors)) ∧
    (¬(nextjsValidate config).valid = true →
        nextjsGenerate config
          = .error (validationFailureMsg (nextjsValidate config).errors)) ∧
    (¬(lambdaEdgeValidate config).valid = true →
        lambdaEdgeGenerate config
          = .error (validationFailureMsg (lambdaEdgeValidate config).errors)) ∧
    (¬(quickjsValidate config).valid = true →
        quickjsGenerate config
          = .error (validationFailureMsg (quickjsValidate config).errors)) ∧
    (lambdaEdgeValidate config).errors.length = lambdaEdgeErrorCount config ∧
    (quickjsValidate config).errors.length = quickjsErrorCount config := by
  refine ⟨?_, ?_, ?_, ?_, lambdaEdgeValidate_errors_length config,
    quickjsValidate_errors_length config⟩
  · intro h
    simp [cloudflareGenerate, h]
  · intro h
    simp [nextjsGenerate, h]
  · intro h
    simp [lambdaEdgeGenerate, h]
  · intro h
    simp [quickjsGenerate, h]

/-- Two locations whose `fastcgi_pass` makes them incompatible with the
Lambda@Edge and QuickJS targets, used to witness error aggregation. -/
def fastcgiConfig : ParsedNginxConfig :=
  { servers := [
      { listen := [{ port := some 80 }]
        locations := [
          { path := "/a", directives := { fastcgi_pass := some "unix:/var/run/php.sock" } },
          { path := "/b", directives := { fastcgi_pass := some "127.0.0.1:9000" } } ] } ]
    upstreams := []
    metadata := { parser_version := "crossplane-1.0.0", warnings := [] } }

/-- Claim C4, witness: on a configuration with two independent `fastcgi_pass`
locations the Lambda@Edge validation collects two errors and `generate()`
fails with the single aggregate message listing both. -/
theorem claimC4_witness :
    lambdaEdgeErrorCount fastcgiConfig = 2 ∧
    (lambdaEdgeValidate fastcgiConfig).errors.length = 2 ∧
    lambdaEdgeGenerate fastcgiConfig
      = .error ("Validation failed: Server 0, Location 0: FastCGI/uWSGI not supported in Lambda@Edge, Server 0, Location 1: FastCGI/uWSGI not supported in Lambda@Edge") := by
  have h := claimC4_theorem fastcgiConfig
  refine ⟨by decide, ?_, ?_⟩
  · rw [h.2.2.2.2.1]
    decide
  · rw [h.2.2.1 (by decide)]
    rfl

/-- Claim C5, amended: only the QuickJS generator wraps the upstream-URL
parse in `try`/`catch` and degrades an ill-formed `proxy_pass` to an emitted
runtime 502 code path for that location; the Lambda@Edge generator performs
the same `new URL` parse with no handler, so the exception escapes and the
whole `generate()` call aborts. -/
theorem claimC5_theorem (proxyPass : String) (location : LocationBlock)
    (h : jsParseURL (stripNginxVars proxyPass) = none) :
    quickjsGenerateProxyHandler proxyPass location
      = [ .comment s!"Proxy to: {proxyPass}",
          .comment s!"Invalid proxy URL: {proxyPass}",
          .createResponse (some 502) "Bad Gateway - Invalid upstream URL" ] ∧
    lambdaEdgeGenerateProxyHandler proxyPass location
      = .error s!"Invalid URL: {stripNginxVars proxyPass}" := by
  constructor
  · simp [quickjsGenerateProxyHandler, h]
  · simp [lambdaEdgeGenerateProxyHandler, h]

/-- Claim C5, witness: the amended theorem at the ill-formed upstream
`localhost`. -/
theorem claimC5_witness :
    quickjsGenerateProxyHandler "localhost" { path := "/bad" }
      = [ .comment "Proxy to: localhost",
          .comment "Invalid proxy URL: localhost",
          .createResponse (some 502) "Bad Gateway - Invalid upstream URL" ] ∧
    lambdaEdgeGenerateProxyHandler "localhost" { path := "/bad" }
      = .error "Invalid URL: localhost" := by
  have h := claimC5_theorem "localhost" { path := "/bad" } (by decide)
  exact ⟨h.1, h.2⟩

/-- One good and one ill-formed `proxy_pass` on the same server. -/
def mixedProxyConfig : ParsedNginxConfig :=
  { servers := [
      { listen := [{ port := some 80 }]
        server_name := some ["example.com"]
        locations := [
          { path := "/", directives := { proxy_pass := some "http://backend:3000" } },
          { path := "/bad", directives := { proxy_pass := some "localhost" } } ] } ]
    upstreams := []
    metadata := { parser_version := "crossplane-1.0.0", warnings := [] } }

/-- Claim C5, counterexample: on a configuration with one well-formed and one
ill-formed `proxy_pass`, the Lambda@Edge `generate()` call aborts with the
URL-parse exception (no per-location degradation, contradicting the claim),
while the QuickJS generator converts the rest and emits the 502 path for the
bad location only. -/
theorem claimC5_counterexample :
    lambdaEdgeGenerate mixedProxyConfig = .error "Invalid URL: localhost" ∧
    quickjsGenerate mixedProxyConfig
      = .ok { header := "// Generated by nginx-to-edge-js"
              servers := [
                { cond := .ors [.patEq "example.com"]
                  locations := [
                    { path := "/"
                      cond := .pcRootOr
                      body := [
                        .comment "Proxy to: http://backend:3000",
                        .comment "Upstream configuration",
                        .upstream "backend" "3000" "http:" "/",
                        .comment "Build proxy request (QuickJS optimized)",
                        .comment "Execute proxy request (platform-specific implementation needed)",
                        .proxyCall ] },
                    { path := "/bad"
                      cond := .pcMatchesPath "/bad"
                      body := [
                        .comment "Proxy to: localhost",
                        .comment "Invalid proxy URL: localhost",
                        .createResponse (some 502) "Bad Gateway - Invalid upstream URL" ] } ] } ] } := by
  constructor
  · rfl
  · rfl

end NginxToEdge
